import Mathlib

/-!
Verification of the Gesture Interpreter of the Hand-Gesture repository.

The definitions below are a shallow embedding of the enhanced gesture module
(the `initHandTracking` callback and its helper functions) together with the
pinch-calibration keyboard action. JavaScript numbers are modelled as real
numbers, JavaScript booleans as `Bool`, and the possibly-undefined global
`window.customPinchThreshold` as an `Option ℝ` whose JS truthiness test
(`x || default`, `!!x`) is modelled explicitly. The tracking callback mutates
a shared state record; here it is a pure step function on a `State` record.
-/

noncomputable section

namespace HandGesture

/-- A 2D landmark point in normalized camera coordinates. -/
structure Pt where
  x : ℝ
  y : ℝ

/-- Math.hypot on two components. -/
def hypot (a b : ℝ) : ℝ := Real.sqrt (a ^ 2 + b ^ 2)

/-- lerp(start, end, factor) = start + (end - start) * factor. -/
def lerp (a b f : ℝ) : ℝ := a + (b - a) * f

/-- landmarks[i]: array access; out-of-range reads give a default point
(the callers guard with a 21-point length check before indexing). -/
def nth (lm : List Pt) (i : ℕ) : Pt := lm.getD i ⟨0, 0⟩

/-- JS truthiness fallback v || d for a possibly-undefined number:
undefined and 0 are falsy. -/
def jsOrR (v : Option ℝ) (d : ℝ) : ℝ :=
  match v with
  | some x => if x = 0 then d else x
  | none => d

/-- JS double negation !!v for a possibly-undefined number. -/
def jsTruthy (v : Option ℝ) : Bool :=
  match v with
  | some x => decide (x ≠ 0)
  | none => false

/-- JS truthiness fallback v || d for a possibly-undefined string:
undefined and the empty string are falsy. -/
def jsOrS (v : Option String) (d : String) : String :=
  match v with
  | some x => if x = "" then d else x
  | none => d

/-- The per-digit extension flags computed by updateFingerStates. -/
structure FingerStates where
  thumb : Bool
  index : Bool
  middle : Bool
  ring : Bool
  pinky : Bool

/-- Result record of recognizeAdvancedGestures. -/
structure GestureResult where
  type : String
  confidence : ℝ

/-- One Gesture History entry pushed per valid-hand frame. -/
structure Entry where
  position : Pt
  openness : ℝ
  pinch : Bool
  timestamp : ℝ

/-- Result record of detectEnhancedPinch. -/
structure PinchData where
  isPinching : Bool
  distance : ℝ
  threshold : ℝ
  confidence : ℝ
  isCustomThreshold : Bool

/-- The pinchDetails diagnostic record stored on the shared state. -/
structure PinchDetails where
  distance : ℝ
  threshold : ℝ
  confidence : ℝ
  handedness : Option String

/-- One entry of results.multiHandedness. -/
structure Handedness where
  score : ℝ
  label : String

/-- The argument of the hands.onResults callback: the parallel arrays
results.multiHandLandmarks and results.multiHandedness. -/
structure Results where
  multiHandLandmarks : List (List Pt)
  multiHandedness : List Handedness

/-- The shared mutable state: the gestureState record created in main.js
together with the fields installed on it by initHandTracking, the
module-local gestureHistory / lastPinchTime / lastGestureTime variables,
and the process-wide window.customPinchThreshold. -/
structure State where
  pinch : Bool
  openness : ℝ
  position : Pt
  gestureType : String
  gestureConfidence : ℝ
  handVelocity : Pt
  fingerStates : FingerStates
  pinchDetails : PinchDetails
  gestureHistory : List Entry
  lastPinchTime : ℝ
  lastGestureTime : ℝ
  customPinchThreshold : Option ℝ

/-- GESTURE_HISTORY_LENGTH = 5. -/
def GESTURE_HISTORY_LENGTH : ℕ := 5

/-- gestureSmoothing = 0.8. -/
def gestureSmoothing : ℝ := 0.8

/-- The state right after main.js creates gestureState and initHandTracking
initialises the advanced gesture fields: pinch false, openness 0,
position (0,0), gestureType none with confidence 0, zero velocity, all
finger flags false, zeroed pinch details, empty history, zero timers,
no calibration override. -/
def initState : State where
  pinch := false
  openness := 0
  position := ⟨0, 0⟩
  gestureType := "none"
  gestureConfidence := 0
  handVelocity := ⟨0, 0⟩
  fingerStates := ⟨false, false, false, false, false⟩
  pinchDetails := { distance := 0, threshold := 0, confidence := 0, handedness := none }
  gestureHistory := []
  lastPinchTime := 0
  lastGestureTime := 0
  customPinchThreshold := none

/-- updateFingerStates: a digit is extended when the tip-to-base distance
exceeds the per-digit threshold (thumb 0.1, other digits 0.15). -/
def updateFingerStates (lm : List Pt) : FingerStates where
  thumb := decide (0.1 < hypot ((nth lm 4).x - (nth lm 2).x) ((nth lm 4).y - (nth lm 2).y))
  index := decide (0.15 < hypot ((nth lm 8).x - (nth lm 5).x) ((nth lm 8).y - (nth lm 5).y))
  middle := decide (0.15 < hypot ((nth lm 12).x - (nth lm 9).x) ((nth lm 12).y - (nth lm 9).y))
  ring := decide (0.15 < hypot ((nth lm 16).x - (nth lm 13).x) ((nth lm 16).y - (nth lm 13).y))
  pinky := decide (0.15 < hypot ((nth lm 20).x - (nth lm 17).x) ((nth lm 20).y - (nth lm 17).y))

/-- Object.values(fingerStates).filter(state => state).length. -/
def extendedCount (fs : FingerStates) : ℕ :=
  (if fs.thumb then 1 else 0) + (if fs.index then 1 else 0) + (if fs.middle then 1 else 0)
    + (if fs.ring then 1 else 0) + (if fs.pinky then 1 else 0)

/-- recognizeAdvancedGestures: the if/else-if classification cascade over
the extended-digit count. The landmarks argument is kept from the source
signature although the body never reads it. -/
def recognizeAdvancedGestures (_lm : List Pt) (fs : FingerStates) : GestureResult :=
  let extendedFingers := extendedCount fs
  if extendedFingers = 0 then
    ⟨"fist", 0.9⟩
  else if extendedFingers = 1 ∧ fs.index = true then
    ⟨"pointing", 0.95⟩
  else if extendedFingers = 2 ∧ fs.index = true ∧ fs.middle = true then
    ⟨"peace", 0.9⟩
  else if extendedFingers = 5 then
    ⟨"open_hand", 0.85⟩
  else if extendedFingers = 3 ∧ fs.index = true ∧ fs.middle = true ∧ fs.ring = true then
    ⟨"three", 0.85⟩
  else
    ⟨"open_hand", 0.8⟩

/-- detectEnhancedPinch: thumb-tip/index-tip distance against an adaptive
palm-width threshold (or the calibration override), with history-weighted
confidence. The initial undefined-landmark guard of the source is the
match on the two optional array reads. -/
def detectEnhancedPinch (lm : List Pt) (gestureHistory : List Entry)
    (customPinchThreshold : Option ℝ) : PinchData :=
  match lm.get? 4, lm.get? 8 with
  | some thumbTip, some indexTip =>
    let distance := Real.sqrt ((thumbTip.x - indexTip.x) ^ 2 + (thumbTip.y - indexTip.y) ^ 2)
    let palmWidth := hypot ((nth lm 5).x - (nth lm 17).x) ((nth lm 5).y - (nth lm 17).y)
    let baseThreshold : ℝ := 0.045
    let handSizeFactor := max 0.8 (min 1.2 (palmWidth * 3))
    let adaptiveThreshold := baseThreshold * handSizeFactor
    let finalThreshold := jsOrR customPinchThreshold adaptiveThreshold
    let isTouching := decide (distance < finalThreshold)
    let confidence := max 0 (1 - distance / (finalThreshold * 2))
    let recentPinches := (gestureHistory.filter (fun g => g.pinch)).length
    let stabilityWeight := min 0.3 ((recentPinches : ℝ) * 0.1)
    let sustainedPinch := decide (3 ≤ gestureHistory.length)
      && (gestureHistory.drop (gestureHistory.length - 3)).all (fun g => g.pinch)
    let sustainedWeight : ℝ := if sustainedPinch then 0.2 else 0
    { isPinching := isTouching
      distance := distance
      threshold := finalThreshold
      confidence := min 1 (confidence + stabilityWeight + sustainedWeight)
      isCustomThreshold := jsTruthy customPinchThreshold }
  | _, _ =>
    { isPinching := false, distance := 1, threshold := 0.045, confidence := 0,
      isCustomThreshold := false }

/-- calculateHandOpenness: average of the palm-to-middle-tip distance term
and the extended-digit fraction, clamped to 1. -/
def calculateHandOpenness (lm : List Pt) (fs : FingerStates) : ℝ :=
  let baseOpenness := min 1 (hypot ((nth lm 0).x - (nth lm 12).x) ((nth lm 0).y - (nth lm 12).y) * 2)
  let fingerFactor := (extendedCount fs : ℝ) / 5
  min 1 ((baseOpenness + fingerFactor) / 2)

/-- gestureHistory.push(e) followed by a shift() once the length exceeds
GESTURE_HISTORY_LENGTH. -/
def pushTrim (h : List Entry) (e : Entry) : List Entry :=
  let h2 := h ++ [e]
  if GESTURE_HISTORY_LENGTH < h2.length then h2.drop 1 else h2

/-- The hand-selection loop: index of the hand with the highest
multiHandedness score (missing scores default to 0.5), ties keeping
the earlier hand. -/
def bestHandIndex (r : Results) : ℕ :=
  ((List.range r.multiHandLandmarks.length).foldl
    (fun (acc : ℕ × ℝ) i =>
      let handConfidence := jsOrR ((r.multiHandedness.get? i).map (fun h => h.score)) 0.5
      if acc.2 < handConfidence then (i, handConfidence) else acc)
    (0, 0)).1

/-- The landmark list of the selected hand. -/
def selectedLandmarks (r : Results) : List Pt :=
  r.multiHandLandmarks.getD (bestHandIndex r) []

/-- The hands.onResults callback as a step function: `now` is the
performance.now() reading at the top of the callback. DOM status updates
are outside the model. -/
def onResults (s : State) (r : Results) (now : ℝ) : State :=
  if r.multiHandLandmarks.length = 0 then
    { s with gestureType := "none", gestureConfidence := 0 }
  else
    let landmarks := selectedLandmarks r
    let handedness := r.multiHandedness.get? (bestHandIndex r)
    if landmarks.length < 21 then s
    else
      let prevPosition := s.position
      let fingerStates := updateFingerStates landmarks
      let gestureData := recognizeAdvancedGestures landmarks fingerStates
      let gestureConfidence := lerp s.gestureConfidence gestureData.confidence 0.1
      let pinchData := detectEnhancedPinch landmarks s.gestureHistory s.customPinchThreshold
      let pinch := pinchData.isPinching
      let pinchDetails : PinchDetails :=
        { distance := pinchData.distance
          threshold := pinchData.threshold
          confidence := pinchData.confidence
          handedness := some (jsOrS (handedness.map (fun h => h.label)) "Unknown") }
      let lastPinchTime :=
        if pinch && decide (800 < now - s.lastPinchTime) then now else s.lastPinchTime
      let openness := calculateHandOpenness landmarks fingerStates
      let rawPosition : Pt := ⟨((nth landmarks 0).x - 0.5) * 2, -((nth landmarks 0).y - 0.5) * 2⟩
      let position : Pt :=
        ⟨lerp s.position.x rawPosition.x gestureSmoothing,
         lerp s.position.y rawPosition.y gestureSmoothing⟩
      let deltaTime := max 1 (now - s.lastGestureTime)
      let handVelocity : Pt :=
        ⟨(position.x - prevPosition.x) / deltaTime * 1000,
         (position.y - prevPosition.y) / deltaTime * 1000⟩
      let entry : Entry := ⟨position, openness, pinch, now⟩
      let gestureHistory := pushTrim s.gestureHistory entry
      { pinch := pinch
        openness := openness
        position := position
        gestureType := gestureData.type
        gestureConfidence := gestureConfidence
        handVelocity := handVelocity
        fingerStates := fingerStates
        pinchDetails := pinchDetails
        gestureHistory := gestureHistory
        lastPinchTime := lastPinchTime
        lastGestureTime := now
        customPinchThreshold := s.customPinchThreshold }

/-- Processing a sequence of tracking callbacks (each a Results record with
its performance.now() reading). -/
def processSeq (s : State) (frames : List (Results × ℝ)) : State :=
  frames.foldl (fun st fr => onResults st fr.1 fr.2) s

/-- The keyboard calibration action (case 'c'): with a known nonzero pinch
distance it stores distance × 1.2 as the custom threshold, otherwise it
only prints a hint and changes nothing. -/
def calibrateAction (s : State) : State :=
  if 0 < s.pinchDetails.distance then
    { s with customPinchThreshold := some (s.pinchDetails.distance * 1.2) }
  else s

/-- A callback input with a nonempty hand list whose selected hand has the
full 21 landmarks. -/
def validFrame (r : Results) : Prop :=
  r.multiHandLandmarks ≠ [] ∧ 21 ≤ (selectedLandmarks r).length

/-- The per-frame summary recorded in Gesture History, read back from the
state produced by the frame that pushed it. -/
def entryOf (s : State) : Entry :=
  ⟨s.position, s.openness, s.pinch, s.lastGestureTime⟩

/-- The clamping invariant of the output state: openness, smoothed gesture
confidence and pinch confidence all stay in [0,1]. -/
def Invariant (s : State) : Prop :=
  (0 ≤ s.openness ∧ s.openness ≤ 1) ∧ (0 ≤ s.gestureConfidence ∧ s.gestureConfidence ≤ 1)
    ∧ (0 ≤ s.pinchDetails.confidence ∧ s.pinchDetails.confidence ≤ 1)

/-- After six consecutive tracking callbacks from the initial state, the
Gesture History holds exactly the five most recent per-frame summaries in
frame order. -/
def fifoAfterSix (r1 r2 r3 r4 r5 r6 : Results) (t1 t2 t3 t4 t5 t6 : ℝ) : Prop :=
  let s1 := onResults initState r1 t1
  let s2 := onResults s1 r2 t2
  let s3 := onResults s2 r3 t3
  let s4 := onResults s3 r4 t4
  let s5 := onResults s4 r5 t5
  let s6 := onResults s5 r6 t6
  s6.gestureHistory.length = 5 ∧
    s6.gestureHistory = [entryOf s2, entryOf s3, entryOf s4, entryOf s5, entryOf s6]

/-- The spec sentence for the pinch threshold: without an override the
threshold is clamp(palmWidth*3, 0.8, 1.2) * 0.045 with palmWidth the
index-to-pinky metacarpal-base distance; a nonzero override replaces it
outright; pinch is active iff the thumb-index distance is strictly below
the effective threshold. -/
def thresholdSpec (lm : List Pt) (hist : List Entry) : Prop :=
  ((detectEnhancedPinch lm hist none).threshold
      = min (max (hypot ((nth lm 5).x - (nth lm 17).x)
          ((nth lm 5).y - (nth lm 17).y) * 3) 0.8) 1.2 * 0.045)
  ∧ (∀ c : ℝ, c ≠ 0 → (detectEnhancedPinch lm hist (some c)).threshold = c)
  ∧ ∀ custom : Option ℝ,
      ((detectEnhancedPinch lm hist custom).isPinching = true
        ↔ (detectEnhancedPinch lm hist custom).distance
            < (detectEnhancedPinch lm hist custom).threshold)

/-- The spec sentence for the pinch confidence: base term
max(0, 1 - distance/(2*threshold)), plus min(0.3, 0.1 * number of history
entries with pinch true), plus 0.2 when the history has at least 3 entries
and the last 3 are all pinching, the sum clamped to 1. -/
def confidenceSpec (lm : List Pt) (hist : List Entry) (custom : Option ℝ) : Prop :=
  (detectEnhancedPinch lm hist custom).confidence
    = min 1 (max 0 (1 - (detectEnhancedPinch lm hist custom).distance
        / (2 * (detectEnhancedPinch lm hist custom).threshold))
      + min 0.3 (0.1 * ((hist.filter (fun g => g.pinch)).length : ℝ))
      + if 3 ≤ hist.length ∧ (hist.drop (hist.length - 3)).all (fun g => g.pinch) = true
        then 0.2 else 0)

/-- The spec sentence for velocity: on a valid frame the hand velocity is
the change of the smoothed position divided by the elapsed time since the
previous processed frame floor-clamped to 1 ms, scaled by 1000 to
per-second units. -/
def velocityProp (s : State) (r : Results) (t : ℝ) : Prop :=
  (onResults s r t).handVelocity.x
      = ((onResults s r t).position.x - s.position.x) / max 1 (t - s.lastGestureTime) * 1000
  ∧ (onResults s r t).handVelocity.y
      = ((onResults s r t).position.y - s.position.y) / max 1 (t - s.lastGestureTime) * 1000

/-- The effect of an empty-hand callback on the output fields: gestureType
and gestureConfidence are overwritten, everything else keeps its previous
value. -/
def frameEffectNoHand (s : State) (r : Results) (t : ℝ) : Prop :=
  (onResults s r t).gestureType = "none"
  ∧ (onResults s r t).gestureConfidence = 0
  ∧ (onResults s r t).pinch = s.pinch
  ∧ (onResults s r t).position = s.position
  ∧ (onResults s r t).openness = s.openness
  ∧ (onResults s r t).handVelocity = s.handVelocity
  ∧ (onResults s r t).fingerStates = s.fingerStates
  ∧ (onResults s r t).pinchDetails = s.pinchDetails
  ∧ (onResults s r t).gestureHistory = s.gestureHistory

/-! Concrete inputs used to instantiate the theorems. -/

/-- 21 landmarks all at the origin. -/
def basePts : List Pt := List.replicate 21 ⟨0, 0⟩

/-- Landmarks whose extension test marks thumb, index and middle extended
(tips 0.2 away from their bases) and ring and pinky retracted. -/
def lmMixed : List Pt := ((basePts.set 4 ⟨0.2, 0⟩).set 8 ⟨0.2, 0⟩).set 12 ⟨0.2, 0⟩

/-- Landmarks whose extension test marks exactly index and middle extended. -/
def lmPeace : List Pt := (basePts.set 8 ⟨0.2, 0⟩).set 12 ⟨0.2, 0⟩

/-- Landmarks whose extension test marks all five digits extended. -/
def lmFive : List Pt :=
  ((((basePts.set 4 ⟨0.2, 0⟩).set 8 ⟨0.2, 0⟩).set 12 ⟨0.2, 0⟩).set 16 ⟨0.2, 0⟩).set 20 ⟨0.2, 0⟩

/-- Landmarks with thumb-tip to index-tip distance 0.034. -/
def lmD34 : List Pt := basePts.set 8 ⟨0.034, 0⟩

/-- Landmarks with the wrist at the frame centre (raw position (0,0)). -/
def lmMid : List Pt := basePts.set 0 ⟨0.5, 0.5⟩

/-- Landmarks with the wrist at x = 0.55 (raw position (0.1, 0)). -/
def lmW : List Pt := lmMid.set 0 ⟨0.55, 0.5⟩

/-- A detection-confidence record for the example frames. -/
def handedEx : Handedness := ⟨0.9, "Right"⟩

/-- A callback input with no detected hands. -/
def rEmpty : Results := ⟨[], []⟩

/-- A callback input whose only hand has a single landmark (invalid). -/
def rShort : Results := ⟨[[⟨0.5, 0.5⟩]], [handedEx]⟩

/-- A valid callback input: one hand, all 21 landmarks at the origin. -/
def rZero : Results := ⟨[basePts], [handedEx]⟩

/-- A valid callback input with the wrist at the frame centre. -/
def rMid : Results := ⟨[lmMid], [handedEx]⟩

/-- A valid callback input with the wrist at x = 0.55. -/
def rW : Results := ⟨[lmW], [handedEx]⟩

/-- A state whose current pinch distance is 0.03 (as after a frame whose
thumb-index distance measured 0.03). -/
def sCal : State :=
  { initState with pinchDetails := { distance := 0.03, threshold := 0.036,
                                     confidence := 0.5, handedness := none } }

/-! Helper lemmas. -/

lemma hypot_nonneg (a b : ℝ) : 0 ≤ hypot a b := Real.sqrt_nonneg _

lemma hypot_x (a : ℝ) (h : 0 ≤ a) : hypot a 0 = a := by
  rw [hypot, show a ^ 2 + (0 : ℝ) ^ 2 = a ^ 2 by ring]
  exact Real.sqrt_sq h

lemma get?_eq_nth (lm : List Pt) (i : ℕ) (h : i < lm.length) :
    lm.get? i = some (nth lm i) := by
  rw [List.get?_eq_get h, nth, List.getD_eq_getElem?_getD, List.getElem?_eq_getElem h]
  rfl

lemma jsOrR_some (x d : ℝ) (h : x ≠ 0) : jsOrR (some x) d = x := by
  simp [jsOrR, h]

/-- The clamp of the source (max-outside) agrees with the clamp of the
spec sentence (min-outside). -/
lemma clamp_swap (x : ℝ) : max 0.8 (min 1.2 x) = min (max x 0.8) 1.2 := by
  rw [max_min_distrib_left, min_comm, max_comm]
  norm_num

/-- Reduction of detectEnhancedPinch for a full 21-point landmark list. -/
lemma detect_eq (lm : List Pt) (hist : List Entry) (c : Option ℝ)
    (h : 21 ≤ lm.length) :
    detectEnhancedPinch lm hist c =
      (let distance := Real.sqrt (((nth lm 4).x - (nth lm 8).x) ^ 2
          + ((nth lm 4).y - (nth lm 8).y) ^ 2)
       let palmWidth := hypot ((nth lm 5).x - (nth lm 17).x) ((nth lm 5).y - (nth lm 17).y)
       let finalThreshold := jsOrR c (0.045 * max 0.8 (min 1.2 (palmWidth * 3)))
       { isPinching := decide (distance < finalThreshold)
         distance := distance
         threshold := finalThreshold
         confidence := min 1 (max 0 (1 - distance / (finalThreshold * 2))
           + min 0.3 (((hist.filter (fun g => g.pinch)).length : ℝ) * 0.1)
           + if (decide (3 ≤ hist.length)
                  && (hist.drop (hist.length - 3)).all (fun g => g.pinch)) = true
             then 0.2 else 0)
         isCustomThreshold := jsTruthy c }) := by
  have h4 := get?_eq_nth lm 4 (by omega)
  have h8 := get?_eq_nth lm 8 (by omega)
  unfold detectEnhancedPinch
  rw [h4, h8]

/-- The empty-hand branch of the callback. -/
lemma onResults_empty (s : State) (r : Results) (t : ℝ)
    (h : r.multiHandLandmarks = []) :
    onResults s r t = { s with gestureType := "none", gestureConfidence := 0 } := by
  rw [onResults, if_pos (by simp [h])]

/-- The invalid-landmark branch of the callback. -/
lemma onResults_short (s : State) (r : Results) (t : ℝ)
    (h1 : r.multiHandLandmarks ≠ []) (h2 : (selectedLandmarks r).length < 21) :
    onResults s r t = s := by
  rw [onResults, if_neg (by simp [h1]), if_pos h2]

/-- The valid-hand branch of the callback, with the state written out. -/
lemma onResults_valid (s : State) (r : Results) (t : ℝ)
    (h1 : r.multiHandLandmarks ≠ []) (h2 : 21 ≤ (selectedLandmarks r).length) :
    onResults s r t =
      (let landmarks := selectedLandmarks r
       let fingerStates := updateFingerStates landmarks
       let gestureData := recognizeAdvancedGestures landmarks fingerStates
       let pinchData := detectEnhancedPinch landmarks s.gestureHistory s.customPinchThreshold
       let openness := calculateHandOpenness landmarks fingerStates
       let position : Pt :=
         ⟨lerp s.position.x (((nth landmarks 0).x - 0.5) * 2) gestureSmoothing,
          lerp s.position.y (-((nth landmarks 0).y - 0.5) * 2) gestureSmoothing⟩
       let deltaTime := max 1 (t - s.lastGestureTime)
       { pinch := pinchData.isPinching
         openness := openness
         position := position
         gestureType := gestureData.type
         gestureConfidence := lerp s.gestureConfidence gestureData.confidence 0.1
         handVelocity := ⟨(position.x - s.position.x) / deltaTime * 1000,
                          (position.y - s.position.y) / deltaTime * 1000⟩
         fingerStates := fingerStates
         pinchDetails :=
           { distance := pinchData.distance
             threshold := pinchData.threshold
             confidence := pinchData.confidence
             handedness := some (jsOrS ((r.multiHandedness.get? (bestHandIndex r)).map
               (fun h => h.label)) "Unknown") }
         gestureHistory := pushTrim s.gestureHistory ⟨position, openness, pinchData.isPinching, t⟩
         lastPinchTime :=
           if pinchData.isPinching && decide (800 < t - s.lastPinchTime) then t
           else s.lastPinchTime
         lastGestureTime := t
         customPinchThreshold := s.customPinchThreshold }) := by
  rw [onResults, if_neg (by simp [h1]), if_neg (by omega)]

/-- With a single detected hand the selection loop picks index 0. -/
lemma bestHandIndex_singleton (lm : List Pt) (hs : List Handedness) :
    bestHandIndex ⟨[lm], hs⟩ = 0 := by
  rw [bestHandIndex]
  simp only [List.length_singleton, show List.range 1 = [0] from rfl, List.foldl_cons,
    List.foldl_nil]
  split <;> rfl

lemma selectedLandmarks_singleton (lm : List Pt) (hs : List Handedness) :
    selectedLandmarks ⟨[lm], hs⟩ = lm := by
  rw [selectedLandmarks, bestHandIndex_singleton]
  rfl

lemma validFrame_singleton (lm : List Pt) (hs : List Handedness) (h : 21 ≤ lm.length) :
    validFrame ⟨[lm], hs⟩ := by
  refine ⟨by simp, ?_⟩
  rw [selectedLandmarks_singleton]
  exact h

/-- The classifier only emits base confidences between 0.8 and 0.95. -/
lemma recognize_conf_mem (lm : List Pt) (fs : FingerStates) :
    0.8 ≤ (recognizeAdvancedGestures lm fs).confidence
      ∧ (recognizeAdvancedGestures lm fs).confidence ≤ 0.95 := by
  simp only [recognizeAdvancedGestures]
  split_ifs <;> norm_num

lemma openness_mem (lm : List Pt) (fs : FingerStates) :
    0 ≤ calculateHandOpenness lm fs ∧ calculateHandOpenness lm fs ≤ 1 := by
  unfold calculateHandOpenness
  have hh := hypot_nonneg ((nth lm 0).x - (nth lm 12).x) ((nth lm 0).y - (nth lm 12).y)
  have h1 : (0 : ℝ) ≤ min 1 (hypot ((nth lm 0).x - (nth lm 12).x)
      ((nth lm 0).y - (nth lm 12).y) * 2) :=
    le_min (by norm_num) (by linarith)
  have h2 : (0 : ℝ) ≤ (extendedCount fs : ℝ) / 5 := by positivity
  exact ⟨le_min (by norm_num) (by linarith), min_le_left _ _⟩

lemma pinch_conf_mem (lm : List Pt) (hist : List Entry) (c : Option ℝ) :
    0 ≤ (detectEnhancedPinch lm hist c).confidence
      ∧ (detectEnhancedPinch lm hist c).confidence ≤ 1 := by
  unfold detectEnhancedPinch
  cases h4 : lm.get? 4 with
  | none => simp
  | some thumbTip =>
    cases h8 : lm.get? 8 with
    | none => simp
    | some indexTip =>
      simp only
      have hA : (0 : ℝ) ≤ max 0 (1 - Real.sqrt ((thumbTip.x - indexTip.x) ^ 2
          + (thumbTip.y - indexTip.y) ^ 2)
          / (jsOrR c (0.045 * max 0.8 (min 1.2 (hypot ((nth lm 5).x - (nth lm 17).x)
            ((nth lm 5).y - (nth lm 17).y) * 3))) * 2)) := le_max_left _ _
      have hB : (0 : ℝ) ≤ min 0.3 (((hist.filter (fun g => g.pinch)).length : ℝ) * 0.1) :=
        le_min (by norm_num) (by positivity)
      have hC : (0 : ℝ) ≤ (if (decide (3 ≤ hist.length)
          && (hist.drop (hist.length - 3)).all (fun g => g.pinch)) = true
          then (0.2 : ℝ) else 0) := by
        split <;> norm_num
      exact ⟨le_min (by norm_num) (by linarith), min_le_left _ _⟩

lemma lerp_mem (a b : ℝ) (ha0 : 0 ≤ a) (ha1 : a ≤ 1) (hb0 : 0 ≤ b) (hb1 : b ≤ 1) :
    0 ≤ lerp a b 0.1 ∧ lerp a b 0.1 ≤ 1 := by
  unfold lerp
  constructor <;> nlinarith

/-- The clamping invariant is preserved by one tracking callback. -/
lemma step_inv (s : State) (r : Results) (t : ℝ) (hs : Invariant s) :
    Invariant (onResults s r t) := by
  by_cases hE : r.multiHandLandmarks = []
  · rw [onResults_empty s r t hE]
    exact ⟨hs.1, ⟨le_refl 0, by norm_num⟩, hs.2.2⟩
  · by_cases hV : (selectedLandmarks r).length < 21
    · rw [onResults_short s r t hE hV]
      exact hs
    · rw [onResults_valid s r t hE (by omega)]
      have hcf := recognize_conf_mem (selectedLandmarks r)
        (updateFingerStates (selectedLandmarks r))
      refine ⟨openness_mem _ _, ?_,
        pinch_conf_mem (selectedLandmarks r) s.gestureHistory s.customPinchThreshold⟩
      exact lerp_mem _ _ hs.2.1.1 hs.2.1.2 (by linarith [hcf.1]) (by linarith [hcf.2])

lemma processSeq_inv (frames : List (Results × ℝ)) (s : State) (hs : Invariant s) :
    Invariant (processSeq s frames) := by
  induction frames generalizing s with
  | nil => exact hs
  | cons a tl ih => exact ih (onResults s a.1 a.2) (step_inv s a.1 a.2 hs)

lemma pushTrim_len (h : List Entry) (e : Entry) (hl : h.length ≤ 5) :
    (pushTrim h e).length ≤ 5 := by
  simp only [pushTrim, GESTURE_HISTORY_LENGTH]
  split_ifs with hc <;> simp_all

/-- One callback never grows the history beyond 5 entries. -/
lemma onResults_hist_len (s : State) (r : Results) (t : ℝ)
    (hl : s.gestureHistory.length ≤ 5) :
    (onResults s r t).gestureHistory.length ≤ 5 := by
  by_cases hE : r.multiHandLandmarks = []
  · rw [onResults_empty s r t hE]; exact hl
  · by_cases hV : (selectedLandmarks r).length < 21
    · rw [onResults_short s r t hE hV]; exact hl
    · rw [onResults_valid s r t hE (by omega)]
      exact pushTrim_len _ _ hl

lemma processSeq_hist_len (frames : List (Results × ℝ)) (s : State)
    (hl : s.gestureHistory.length ≤ 5) :
    (processSeq s frames).gestureHistory.length ≤ 5 := by
  induction frames generalizing s with
  | nil => exact hl
  | cons a tl ih => exact ih (onResults s a.1 a.2) (onResults_hist_len s a.1 a.2 hl)

/-- On a valid frame, the callback appends exactly the summary of the new
state (its position, openness, pinch flag and timestamp) to the history. -/
lemma onResults_valid_history (s : State) (r : Results) (t : ℝ) (h : validFrame r) :
    (onResults s r t).gestureHistory
      = pushTrim s.gestureHistory (entryOf (onResults s r t)) := by
  obtain ⟨h1, h2⟩ := h
  rw [onResults, if_neg (by simp [h1]), if_neg (by omega)]
  rfl

/-- On a no-hand or invalid frame, the callback leaves the history alone. -/
lemma onResults_invalid_history (s : State) (r : Results) (t : ℝ) (h : ¬ validFrame r) :
    (onResults s r t).gestureHistory = s.gestureHistory := by
  by_cases hE : r.multiHandLandmarks = []
  · rw [onResults_empty s r t hE]
  · have hV : (selectedLandmarks r).length < 21 := by
      by_contra hc
      exact h ⟨hE, by omega⟩
    rw [onResults_short s r t hE hV]

/-! Claim theorems. -/

/-- C7: over any sequence of tracking callbacks from the initial state
(whose gestureConfidence starts at 0 and moves by 0.1-factor interpolation
toward classifier base confidences, all of which lie in [0.8, 0.95]), the
outputs stay clamped: openness, gestureConfidence and the pinch confidence
are always within [0, 1]. -/
theorem outputs_clamped (frames : List (Results × ℝ)) :
    initState.gestureConfidence = 0
  ∧ (∀ lm fs, 0.8 ≤ (recognizeAdvancedGestures lm fs).confidence
      ∧ (recognizeAdvancedGestures lm fs).confidence ≤ 0.95)
  ∧ (0 ≤ (processSeq initState frames).openness
      ∧ (processSeq initState frames).openness ≤ 1)
  ∧ (0 ≤ (processSeq initState frames).gestureConfidence
      ∧ (processSeq initState frames).gestureConfidence ≤ 1)
  ∧ (0 ≤ (processSeq initState frames).pinchDetails.confidence
      ∧ (processSeq initState frames).pinchDetails.confidence ≤ 1) := by
  have key := processSeq_inv frames initState
    (by refine ⟨⟨?_, ?_⟩, ⟨?_, ?_⟩, ⟨?_, ?_⟩⟩ <;> norm_num [initState])
  exact ⟨rfl, recognize_conf_mem, key.1, key.2.1, key.2.2⟩

/-- C8: the Gesture History never exceeds 5 entries; after 6 consecutive
valid-hand callbacks from the initial state it holds exactly the 5 most
recent per-frame summaries in frame order (the first frame's entry having
been dropped); and a no-hand or invalid-landmark callback appends
nothing. -/
theorem history_bounded_fifo (r1 r2 r3 r4 r5 r6 : Results) (t1 t2 t3 t4 t5 t6 : ℝ)
    (h1 : validFrame r1) (h2 : validFrame r2) (h3 : validFrame r3)
    (h4 : validFrame r4) (h5 : validFrame r5) (h6 : validFrame r6) :
    (∀ frames, (processSeq initState frames).gestureHistory.length ≤ 5)
  ∧ fifoAfterSix r1 r2 r3 r4 r5 r6 t1 t2 t3 t4 t5 t6
  ∧ (∀ s r t, ¬ validFrame r → (onResults s r t).gestureHistory = s.gestureHistory) := by
  refine ⟨fun frames => processSeq_hist_len frames initState (by simp [initState]), ?_,
    onResults_invalid_history⟩
  simp only [fifoAfterSix]
  set s1 := onResults initState r1 t1 with hs1
  set s2 := onResults s1 r2 t2 with hs2
  set s3 := onResults s2 r3 t3 with hs3
  set s4 := onResults s3 r4 t4 with hs4
  set s5 := onResults s4 r5 t5 with hs5
  set s6 := onResults s5 r6 t6 with hs6
  have v1 : s1.gestureHistory = [entryOf s1] := by
    rw [hs1, onResults_valid_history _ _ _ h1]
    simp [initState, pushTrim, GESTURE_HISTORY_LENGTH]
  have v2 : s2.gestureHistory = [entryOf s1, entryOf s2] := by
    rw [hs2, onResults_valid_history _ _ _ h2, ← hs2, v1]
    simp [pushTrim, GESTURE_HISTORY_LENGTH]
  have v3 : s3.gestureHistory = [entryOf s1, entryOf s2, entryOf s3] := by
    rw [hs3, onResults_valid_history _ _ _ h3, ← hs3, v2]
    simp [pushTrim, GESTURE_HISTORY_LENGTH]
  have v4 : s4.gestureHistory = [entryOf s1, entryOf s2, entryOf s3, entryOf s4] := by
    rw [hs4, onResults_valid_history _ _ _ h4, ← hs4, v3]
    simp [pushTrim, GESTURE_HISTORY_LENGTH]
  have v5 : s5.gestureHistory
      = [entryOf s1, entryOf s2, entryOf s3, entryOf s4, entryOf s5] := by
    rw [hs5, onResults_valid_history _ _ _ h5, ← hs5, v4]
    simp [pushTrim, GESTURE_HISTORY_LENGTH]
  have v6 : s6.gestureHistory
      = [entryOf s2, entryOf s3, entryOf s4, entryOf s5, entryOf s6] := by
    rw [hs6, onResults_valid_history _ _ _ h6, ← hs6, v5]
    simp [pushTrim, GESTURE_HISTORY_LENGTH]
  exact ⟨by rw [v6]; rfl, v6⟩

/-- C8 witness: six identical valid frames (one hand, 21 landmarks at the
origin) processed at times 1..6 leave a history of exactly the last five
summaries. -/
theorem history_bounded_fifo_witness :
    validFrame rZero ∧ fifoAfterSix rZero rZero rZero rZero rZero rZero 1 2 3 4 5 6 := by
  have hv : validFrame rZero := validFrame_singleton basePts [handedEx] (by norm_num [basePts])
  exact ⟨hv, (history_bounded_fifo rZero rZero rZero rZero rZero rZero 1 2 3 4 5 6
    hv hv hv hv hv hv).2.1⟩

/-- C2: for a full 21-point landmark list the adaptive threshold equals
clamp(palmWidth*3, 0.8, 1.2) * 0.045 (palmWidth being the landmark-5 to
landmark-17 distance), a nonzero Calibration Override replaces it outright,
and pinch is active iff the thumb-index distance is strictly below the
effective threshold. -/
theorem pinch_threshold_formula (lm : List Pt) (hist : List Entry)
    (h : 21 ≤ lm.length) : thresholdSpec lm hist := by
  refine ⟨?_, ?_, ?_⟩
  · rw [detect_eq lm hist none h]
    simp only [jsOrR]
    rw [clamp_swap]
    ring
  · intro c hc
    rw [detect_eq lm hist (some c) h]
    simp [jsOrR, hc]
  · intro custom
    rw [detect_eq lm hist custom h]
    simp

/-- C2 witness: the threshold formula instantiated at the origin hand. -/
theorem pinch_threshold_formula_witness :
    21 ≤ basePts.length ∧ thresholdSpec basePts [] :=
  ⟨by norm_num [basePts], pinch_threshold_formula basePts [] (by norm_num [basePts])⟩

/-- C6: for a full 21-point landmark list the reported pinch confidence is
min(1, max(0, 1 - distance/(2*threshold)) + min(0.3, 0.1 * pinching history
entries) + 0.2 when the last 3 of at least 3 history entries pinch). -/
theorem pinch_confidence_formula (lm : List Pt) (hist : List Entry)
    (custom : Option ℝ) (h : 21 ≤ lm.length) : confidenceSpec lm hist custom := by
  rw [confidenceSpec, detect_eq lm hist custom h]
  simp only [Bool.and_eq_true, decide_eq_true_eq]
  ring_nf

/-- C6 witness: the confidence formula instantiated at the origin hand
with an empty history. -/
theorem pinch_confidence_formula_witness :
    21 ≤ basePts.length ∧ confidenceSpec basePts [] none :=
  ⟨by norm_num [basePts], pinch_confidence_formula basePts [] none (by norm_num [basePts])⟩

lemma ufs_mixed : updateFingerStates lmMixed = ⟨true, true, true, false, false⟩ := by
  rw [updateFingerStates]
  rw [show nth lmMixed 4 = ⟨0.2, 0⟩ from rfl, show nth lmMixed 2 = ⟨0, 0⟩ from rfl,
      show nth lmMixed 8 = ⟨0.2, 0⟩ from rfl, show nth lmMixed 5 = ⟨0, 0⟩ from rfl,
      show nth lmMixed 12 = ⟨0.2, 0⟩ from rfl, show nth lmMixed 9 = ⟨0, 0⟩ from rfl,
      show nth lmMixed 16 = ⟨0, 0⟩ from rfl, show nth lmMixed 13 = ⟨0, 0⟩ from rfl,
      show nth lmMixed 20 = ⟨0, 0⟩ from rfl, show nth lmMixed 17 = ⟨0, 0⟩ from rfl]
  norm_num [hypot_x]

lemma ufs_peace : updateFingerStates lmPeace = ⟨false, true, true, false, false⟩ := by
  rw [updateFingerStates]
  rw [show nth lmPeace 4 = ⟨0, 0⟩ from rfl, show nth lmPeace 2 = ⟨0, 0⟩ from rfl,
      show nth lmPeace 8 = ⟨0.2, 0⟩ from rfl, show nth lmPeace 5 = ⟨0, 0⟩ from rfl,
      show nth lmPeace 12 = ⟨0.2, 0⟩ from rfl, show nth lmPeace 9 = ⟨0, 0⟩ from rfl,
      show nth lmPeace 16 = ⟨0, 0⟩ from rfl, show nth lmPeace 13 = ⟨0, 0⟩ from rfl,
      show nth lmPeace 20 = ⟨0, 0⟩ from rfl, show nth lmPeace 17 = ⟨0, 0⟩ from rfl]
  norm_num [hypot_x]

lemma ufs_five : updateFingerStates lmFive = ⟨true, true, true, true, true⟩ := by
  rw [updateFingerStates]
  rw [show nth lmFive 4 = ⟨0.2, 0⟩ from rfl, show nth lmFive 2 = ⟨0, 0⟩ from rfl,
      show nth lmFive 8 = ⟨0.2, 0⟩ from rfl, show nth lmFive 5 = ⟨0, 0⟩ from rfl,
      show nth lmFive 12 = ⟨0.2, 0⟩ from rfl, show nth lmFive 9 = ⟨0, 0⟩ from rfl,
      show nth lmFive 16 = ⟨0.2, 0⟩ from rfl, show nth lmFive 13 = ⟨0, 0⟩ from rfl,
      show nth lmFive 20 = ⟨0.2, 0⟩ from rfl, show nth lmFive 17 = ⟨0, 0⟩ from rfl]
  norm_num [hypot_x]

/-- C3 counterexample: a valid landmark set whose extension test marks
thumb, index and middle extended (ring and pinky retracted) satisfies
"index and middle extended" yet classifies as open_hand with confidence
0.8, not peace: the source requires the extended count to be exactly 2. -/
theorem peace_needs_exactly_two_cex :
    21 ≤ lmMixed.length
  ∧ (updateFingerStates lmMixed).index = true
  ∧ (updateFingerStates lmMixed).middle = true
  ∧ recognizeAdvancedGestures lmMixed (updateFingerStates lmMixed)
      = ⟨"open_hand", 0.8⟩
  ∧ ¬ (recognizeAdvancedGestures lmMixed (updateFingerStates lmMixed)).type = "peace" := by
  refine ⟨by norm_num [lmMixed, basePts], ?_, ?_, ?_, ?_⟩ <;>
    rw [ufs_mixed] <;>
    simp [recognizeAdvancedGestures, extendedCount]

/-- C3 (amended): when the per-finger extension test marks index and middle
as the only extended digits (so the extended count is exactly 2), the
classification is peace with base confidence 0.9. -/
theorem peace_exact_two (lm : List Pt) (_h : 21 ≤ lm.length)
    (hfs : updateFingerStates lm = ⟨false, true, true, false, false⟩) :
    recognizeAdvancedGestures lm (updateFingerStates lm) = ⟨"peace", 0.9⟩ := by
  rw [hfs]
  simp [recognizeAdvancedGestures, extendedCount]

/-- C3 witness: a hand with only index and middle tips away from their
bases classifies as peace. -/
theorem peace_exact_two_witness :
    21 ≤ lmPeace.length
  ∧ updateFingerStates lmPeace = ⟨false, true, true, false, false⟩
  ∧ recognizeAdvancedGestures lmPeace (updateFingerStates lmPeace) = ⟨"peace", 0.9⟩ :=
  ⟨by norm_num [lmPeace, basePts], ufs_peace,
    peace_exact_two lmPeace (by norm_num [lmPeace, basePts]) ufs_peace⟩

/-- C4: when the extension test marks all five digits extended, the
classification is open_hand with base confidence 0.85 - never three or
peace, although index and middle are extended too. -/
theorem open_hand_priority (lm : List Pt) (_h : 21 ≤ lm.length)
    (hfs : updateFingerStates lm = ⟨true, true, true, true, true⟩) :
    recognizeAdvancedGestures lm (updateFingerStates lm) = ⟨"open_hand", 0.85⟩
  ∧ ¬ (recognizeAdvancedGestures lm (updateFingerStates lm)).type = "three"
  ∧ ¬ (recognizeAdvancedGestures lm (updateFingerStates lm)).type = "peace" := by
  rw [hfs]
  refine ⟨?_, ?_, ?_⟩ <;> simp [recognizeAdvancedGestures, extendedCount]

/-- C4 witness: a hand with all five tips away from their bases classifies
as open_hand with confidence 0.85. -/
theorem open_hand_priority_witness :
    21 ≤ lmFive.length
  ∧ updateFingerStates lmFive = ⟨true, true, true, true, true⟩
  ∧ recognizeAdvancedGestures lmFive (updateFingerStates lmFive) = ⟨"open_hand", 0.85⟩ :=
  ⟨by norm_num [lmFive, basePts], ufs_five,
    (open_hand_priority lmFive (by norm_num [lmFive, basePts]) ufs_five).1⟩

/-- The example hand lmD34 measures a thumb-index distance of exactly
0.034. -/
lemma dist_lmD34 (hist : List Entry) (c : Option ℝ) :
    (detectEnhancedPinch lmD34 hist c).distance = 0.034 := by
  rw [detect_eq lmD34 hist c (by norm_num [lmD34, basePts])]
  rw [show nth lmD34 4 = ⟨0, 0⟩ from rfl, show nth lmD34 8 = ⟨0.034, 0⟩ from rfl]
  simp only
  rw [show ((0 : ℝ) - 0.034) ^ 2 + ((0 : ℝ) - 0) ^ 2 = 0.034 ^ 2 by norm_num]
  exact Real.sqrt_sq (by norm_num)

/-- C5: with a known positive pinch distance the calibrate action sets the
override to exactly distance * 1.2 (so distance 0.03 yields 0.036, and a
subsequent frame measuring 0.034 against the 0.036 override reports pinch
active); without a positive distance it changes nothing. -/
theorem calibrate_spec (s : State) :
    (0 < s.pinchDetails.distance →
      (calibrateAction s).customPinchThreshold = some (s.pinchDetails.distance * 1.2))
  ∧ (¬ 0 < s.pinchDetails.distance → calibrateAction s = s)
  ∧ (s.pinchDetails.distance = 0.03 →
      (calibrateAction s).customPinchThreshold = some 0.036)
  ∧ ∀ lm hist, 21 ≤ lm.length →
      (detectEnhancedPinch lm hist (some 0.036)).distance = 0.034 →
      (detectEnhancedPinch lm hist (some 0.036)).isPinching = true := by
  refine ⟨?_, ?_, ?_, ?_⟩
  · intro h
    rw [calibrateAction, if_pos h]
  · intro h
    rw [calibrateAction, if_neg h]
  · intro h
    rw [calibrateAction, if_pos (by rw [h]; norm_num), h]
    norm_num
  · intro lm hist h21 hd
    rw [detect_eq lm hist (some 0.036) h21] at hd ⊢
    simp only [jsOrR, decide_eq_true_eq] at hd ⊢
    rw [hd]
    norm_num

/-- C5 witness: calibrating at distance 0.03 sets the override to 0.036 and
a frame measuring 0.034 then pinches; calibrating the initial state (pinch
distance 0) changes nothing. -/
theorem calibrate_spec_witness :
    sCal.pinchDetails.distance = 0.03
  ∧ (calibrateAction sCal).customPinchThreshold = some 0.036
  ∧ 21 ≤ lmD34.length
  ∧ (detectEnhancedPinch lmD34 [] (some 0.036)).distance = 0.034
  ∧ (detectEnhancedPinch lmD34 [] (some 0.036)).isPinching = true
  ∧ ¬ 0 < initState.pinchDetails.distance
  ∧ calibrateAction initState = initState := by
  have hd : (detectEnhancedPinch lmD34 [] (some 0.036)).distance = 0.034 := dist_lmD34 [] _
  have h21 : 21 ≤ lmD34.length := by norm_num [lmD34, basePts]
  have h0 : ¬ 0 < initState.pinchDetails.distance := by norm_num [initState]
  exact ⟨rfl, (calibrate_spec sCal).2.2.1 rfl, h21, hd,
    (calibrate_spec sCal).2.2.2 lmD34 [] h21 hd, h0, (calibrate_spec initState).2.1 h0⟩

/-- C9: on every valid frame the hand velocity is the smoothed-position
change divided by the elapsed time floor-clamped to 1 ms and scaled by
1000; a zero elapsed time therefore divides by 1; and two consecutive
frames 16 ms apart whose smoothed position moves from x = 0 to x = 0.08
report a velocity of exactly 5 units per second. -/
theorem velocity_formula (s : State) (r : Results) (t : ℝ) (h : validFrame r) :
    velocityProp s r t
  ∧ (t - s.lastGestureTime = 0 →
      (onResults s r t).handVelocity.x
        = ((onResults s r t).position.x - s.position.x) * 1000)
  ∧ ((onResults initState rMid 0).position.x = 0
      ∧ (onResults (onResults initState rMid 0) rW 16).position.x = 0.08
      ∧ (onResults (onResults initState rMid 0) rW 16).handVelocity.x = 5) := by
  have hvp : ∀ s2 r2 t2, validFrame r2 → velocityProp s2 r2 t2 := by
    intro s2 r2 t2 hv
    rw [velocityProp, onResults_valid s2 r2 t2 hv.1 hv.2]
    exact ⟨rfl, rfl⟩
  have hvMid : validFrame rMid :=
    validFrame_singleton lmMid [handedEx] (by norm_num [lmMid, basePts])
  have hvW : validFrame rW :=
    validFrame_singleton lmW [handedEx] (by norm_num [lmW, lmMid, basePts])
  have hsel : selectedLandmarks rMid = lmMid := selectedLandmarks_singleton lmMid [handedEx]
  have hselW : selectedLandmarks rW = lmW := selectedLandmarks_singleton lmW [handedEx]
  have hpos1 : (onResults initState rMid 0).position.x = 0 := by
    rw [onResults_valid initState rMid 0 hvMid.1 hvMid.2]
    simp only [hsel]
    rw [show nth lmMid 0 = ⟨0.5, 0.5⟩ from rfl]
    norm_num [lerp, gestureSmoothing, initState]
  have hlast1 : (onResults initState rMid 0).lastGestureTime = 0 := by
    rw [onResults_valid initState rMid 0 hvMid.1 hvMid.2]
  have hpos2 : (onResults (onResults initState rMid 0) rW 16).position.x = 0.08 := by
    rw [onResults_valid _ rW 16 hvW.1 hvW.2]
    simp only [hselW]
    rw [show nth lmW 0 = ⟨0.55, 0.5⟩ from rfl, hpos1]
    norm_num [lerp, gestureSmoothing]
  have hvel : (onResults (onResults initState rMid 0) rW 16).handVelocity.x = 5 := by
    rw [(hvp _ rW 16 hvW).1, hpos2, hpos1, hlast1]
    have hm : max (1 : ℝ) (16 - 0) = 16 := by
      rw [max_eq_right (by norm_num : (1 : ℝ) ≤ 16 - 0)]
      norm_num
    rw [hm]
    norm_num
  refine ⟨hvp s r t h, ?_, hpos1, hpos2, hvel⟩
  intro h0
  rw [(hvp s r t h).1, h0]
  rw [max_eq_left (by norm_num : (0 : ℝ) ≤ 1), div_one]

/-- C9 witness: the velocity formula instantiated at the origin-hand frame
processed from the initial state. -/
theorem velocity_formula_witness :
    validFrame rZero ∧ velocityProp initState rZero 0 := by
  have hv : validFrame rZero := validFrame_singleton basePts [handedEx] (by norm_num [basePts])
  exact ⟨hv, (velocity_formula initState rZero 0 hv).1⟩

/-- C10: an empty-hand callback writes only gestureType (to none) and
gestureConfidence (to 0), keeping pinch, position, openness, velocity,
finger states, pinch diagnostics and history; an invalid-landmark callback
(selected hand shorter than 21 points) returns the state untouched. -/
theorem frame_effect_fields (s : State) (r : Results) (t : ℝ) :
    (r.multiHandLandmarks = [] → frameEffectNoHand s r t)
  ∧ (r.multiHandLandmarks ≠ [] → (selectedLandmarks r).length < 21 →
      onResults s r t = s) := by
  constructor
  · intro hE
    rw [frameEffectNoHand, onResults_empty s r t hE]
    exact ⟨rfl, rfl, rfl, rfl, rfl, rfl, rfl, rfl, rfl⟩
  · exact onResults_short s r t

/-- C10 witness: the empty-hand and one-landmark frames applied to the
calibration example state. -/
theorem frame_effect_fields_witness :
    rEmpty.multiHandLandmarks = []
  ∧ frameEffectNoHand sCal rEmpty 0
  ∧ rShort.multiHandLandmarks ≠ []
  ∧ (selectedLandmarks rShort).length < 21
  ∧ onResults sCal rShort 0 = sCal := by
  have hne : rShort.multiHandLandmarks ≠ [] := by simp [rShort]
  have hlen : (selectedLandmarks rShort).length < 21 := by
    have e : selectedLandmarks rShort = [⟨0.5, 0.5⟩] :=
      selectedLandmarks_singleton [⟨0.5, 0.5⟩] [handedEx]
    rw [e]
    norm_num
  exact ⟨rfl, (frame_effect_fields sCal rEmpty 0).1 rfl, hne, hlen,
    (frame_effect_fields sCal rShort 0).2 hne hlen⟩

/-- The origin hand pinches: all 21 landmarks coincide, so the thumb-index
distance 0 is below the adaptive threshold 0.036. -/
lemma pinch_basePts : (detectEnhancedPinch basePts [] none).isPinching = true := by
  rw [detect_eq basePts [] none (by norm_num [basePts])]
  rw [show nth basePts 4 = ⟨0, 0⟩ from rfl, show nth basePts 8 = ⟨0, 0⟩ from rfl,
      show nth basePts 5 = ⟨0, 0⟩ from rfl, show nth basePts 17 = ⟨0, 0⟩ from rfl]
  simp only [jsOrR, decide_eq_true_eq]
  rw [show ((0 : ℝ) - 0) ^ 2 + ((0 : ℝ) - 0) ^ 2 = 0 by norm_num, Real.sqrt_zero]
  rw [show hypot ((0 : ℝ) - 0) ((0 : ℝ) - 0) = 0 by rw [show (0 : ℝ) - 0 = 0 by norm_num]; exact hypot_x 0 le_rfl]
  rw [show min (1.2 : ℝ) ((0 : ℝ) * 3) = 0 by norm_num]
  rw [show max (0.8 : ℝ) 0 = 0.8 by norm_num]
  norm_num

/-- C1 counterexample: a valid pinching frame (all landmarks coincident)
followed by an empty-hand callback leaves pinch = true - the no-hand
branch does not emit pinch = false. -/
theorem no_hand_pinch_cex :
    (onResults initState rZero 0).pinch = true
  ∧ rEmpty.multiHandLandmarks = []
  ∧ (onResults (onResults initState rZero 0) rEmpty 1).pinch = true := by
  have hv : validFrame rZero := validFrame_singleton basePts [handedEx] (by norm_num [basePts])
  have hsel : selectedLandmarks rZero = basePts := selectedLandmarks_singleton basePts [handedEx]
  have hp : (onResults initState rZero 0).pinch = true := by
    rw [onResults_valid initState rZero 0 hv.1 hv.2]
    simp only [hsel]
    rw [show initState.gestureHistory = [] from rfl,
        show initState.customPinchThreshold = none from rfl]
    exact pinch_basePts
  exact ⟨hp, rfl, by rw [onResults_empty _ rEmpty 1 rfl]; exact hp⟩

/-- C1 (amended): an empty-hand callback emits gestureType = none and
gestureConfidence = 0 without throwing and without touching pinch or the
history (pinch keeps its previous value instead of being forced to false);
an invalid-landmark callback returns with no output written at all. -/
theorem no_hand_outputs (s : State) (r : Results) (t : ℝ) :
    (r.multiHandLandmarks = [] →
      (onResults s r t).gestureType = "none"
        ∧ (onResults s r t).gestureConfidence = 0
        ∧ (onResults s r t).pinch = s.pinch
        ∧ (onResults s r t).gestureHistory = s.gestureHistory)
  ∧ (r.multiHandLandmarks ≠ [] → (selectedLandmarks r).length < 21 →
      onResults s r t = s) := by
  constructor
  · intro hE
    rw [onResults_empty s r t hE]
    exact ⟨rfl, rfl, rfl, rfl⟩
  · exact onResults_short s r t

/-- C1 witness: the empty-hand callback from the initial state. -/
theorem no_hand_outputs_witness :
    rEmpty.multiHandLandmarks = []
  ∧ ((onResults initState rEmpty 0).gestureType = "none"
      ∧ (onResults initState rEmpty 0).gestureConfidence = 0
      ∧ (onResults initState rEmpty 0).pinch = initState.pinch
      ∧ (onResults initState rEmpty 0).gestureHistory = initState.gestureHistory) :=
  ⟨rfl, (no_hand_outputs initState rEmpty 0).1 rfl⟩

end HandGesture

end
